import Mathlib

/-!
Verification of the sealfs RPC usage slice: the `HelloHandler` dispatch
(benches/rpc/server.rs), the server binary's configuration assembly and
heartbeat reporting task (src/bin/server.rs), and spec-modelled parts of
the RPC core (frame codec, client buffer contract, server connection
isolation) that the visible source only calls into.
-/

namespace Sealfs

/-- Outcome of one `Handler::dispatch` invocation.  A Rust handler returns
`anyhow::Result<(i32, u32, Vec<u8>, Vec<u8>)>`; `ok` is the success tuple
`(status, flags, metadata, data)`, `err` an error `Result`, and `aborted`
a panic (such as the `todo!()` macro), which unwinds instead of returning. -/
inductive DispatchOutcome where
  | ok (status : Int) (flags : Nat) (metadata : List Nat) (data : List Nat)
  | err
  | aborted
deriving DecidableEq, Repr

/-- `HelloHandler::dispatch` from benches/rpc/server.rs: operation type 0
returns `Ok((0, 0, vec![], vec![]))`; every other operation type hits the
`todo!()` branch, which panics. -/
def HelloHandler.dispatch (operation_type : Nat) (_flags : Nat)
    (_path _data _metadata : List Nat) : DispatchOutcome :=
  match operation_type with
  | 0 => .ok 0 0 [] []
  | _ => .aborted

/-- `SendHeartRequest` from sealfs::manager::manager_service as built in
`begin_heartbeat_report`: `{address, flags, lifetime}`. -/
structure SendHeartRequest where
  address : String
  flags : Nat
  lifetime : String
deriving DecidableEq, Repr

/-- `SERVER_FLAG` constant from src/bin/server.rs. -/
def SERVER_FLAG : Nat := 1

/-- Operation type codes used by the server binary.  The enumeration lives
in sealfs::common::serialization; only `SendHeart` is used here. -/
inductive OperationType where
  | SendHeart
deriving DecidableEq, Repr

/-- One `call_remote` invocation as issued by the heartbeat loop: the
target address, operation type, RPC-level flags, path argument, the
request struct sent as data, the send-side metadata argument, and the
capacities of the two caller-supplied receive buffers. -/
structure HeartbeatCall where
  target : String
  opType : OperationType
  rpcFlags : Nat
  path : String
  request : SendHeartRequest
  sendMetadata : List Nat
  metaBufCap : Nat
  dataBufCap : Nat
deriving DecidableEq, Repr

/-- The call record one iteration of `begin_heartbeat_report` builds and
passes to `call_remote`: a fresh `SendHeartRequest` with the server's
address, `SERVER_FLAG` and lifetime, the `SendHeart` operation against the
manager address, RPC flags 0, empty send metadata, and two zero-capacity
receive buffers (`&mut []`, `&mut []`). -/
def heartbeatCall (manager_address server_address lifetime : String) :
    HeartbeatCall :=
  { target := manager_address
    opType := .SendHeart
    rpcFlags := 0
    path := server_address
    request :=
      { address := server_address
        flags := SERVER_FLAG
        lifetime := lifetime }
    sendMetadata := []
    metaBufCap := 0
    dataBufCap := 0 }

/-- What one iteration of the heartbeat loop does after its `call_remote`
returns: on any error result it panics (`panic!` macro in the source),
otherwise it waits for the next tick and continues. -/
inductive IterOutcome where
  | next
  | panicked
deriving DecidableEq, Repr

/-- The error check at the end of one heartbeat iteration:
`if result.is_err() { panic!(...) }`. -/
def heartbeatIteration (result : Except Unit Unit) : IterOutcome :=
  match result with
  | .error _ => .panicked
  | .ok _ => .next

/-- The heartbeat loop of `begin_heartbeat_report`, run against a finite
prefix of `call_remote` results (the loop itself is infinite; an empty
remainder means it is still running).  Returns the calls issued and
whether the task panicked. -/
def heartbeatRun (m s l : String) :
    List (Except Unit Unit) → List HeartbeatCall × Bool
  | [] => ([], false)
  | r :: rs =>
    match heartbeatIteration r with
    | .panicked => ([heartbeatCall m s l], true)
    | .next =>
      let p := heartbeatRun m s l rs
      (heartbeatCall m s l :: p.1, p.2)

/-- Tokio's `MissedTickBehavior` variants, as selected in
`begin_heartbeat_report` via `interval.set_missed_tick_behavior`. -/
inductive MissedTickBehavior where
  | burst
  | delay
  | skip
deriving DecidableEq, Repr

/-- A fixed-period interval timer and its missed-tick policy; the
heartbeat loop builds one with `time::interval(Duration::from_secs(5))`. -/
structure IntervalConfig where
  period : Nat
  behavior : MissedTickBehavior
deriving DecidableEq, Repr

/-- The interval configured by `begin_heartbeat_report`: a fixed 5-second
period with `MissedTickBehavior::Delay`. -/
def heartbeatInterval : IntervalConfig :=
  { period := 5, behavior := .delay }

/-- Deadline of the next tick when the current tick (scheduled at `d`)
completes at time `now`, per tokio's documented missed-tick semantics:
`Burst` keeps the original schedule (missed ticks fire immediately,
back to back), `Delay` reschedules relative to the completion time, and
`Skip` jumps to the next multiple of the period after `now`. -/
def nextDeadline : MissedTickBehavior → Nat → Nat → Nat → Nat
  | .burst, d, _now, p => d + p
  | .delay, _d, now, p => now + p
  | .skip, d, now, p => d + p * ((now - d) / p + 1)

/-- `Args` from src/bin/server.rs: the optional command-line arguments. -/
structure Args where
  manager_address : Option String
  server_address : Option String
  all_servers_address : Option (List String)
  lifetime : Option String
  database_path : Option String
  storage_path : Option String
  heartbeat : Option Bool
deriving DecidableEq, Repr

/-- `Properties` from src/bin/server.rs: the effective configuration. -/
structure Properties where
  manager_address : String
  server_address : String
  all_servers_address : List String
  lifetime : String
  database_path : String
  storage_path : String
  heartbeat : Bool
deriving DecidableEq, Repr

/-- The `false => Properties { ... }` arm of the `match args.use_config_file`
in `main`: each field is the command-line argument `unwrap_or` the
corresponding field of the bundled default server.yaml. -/
def assembleProperties (args : Args) (defaults : Properties) : Properties :=
  { manager_address := args.manager_address.getD defaults.manager_address
    server_address := args.server_address.getD defaults.server_address
    all_servers_address :=
      args.all_servers_address.getD defaults.all_servers_address
    lifetime := args.lifetime.getD defaults.lifetime
    database_path := args.database_path.getD defaults.database_path
    storage_path := args.storage_path.getD defaults.storage_path
    heartbeat := args.heartbeat.getD defaults.heartbeat }

/-- The startup-time effects of `main` guarded by `properties.heartbeat`:
`client.add_connection(&manager_address)` and the `tokio::spawn` of
`begin_heartbeat_report`. -/
inductive StartupAction where
  | addConnection (address : String)
  | spawnHeartbeatTask (manager server lifetime : String)
deriving DecidableEq, Repr

/-- The actions `main` performs before starting the file server: both the
connection to the manager and the heartbeat task exist exactly when the
effective `heartbeat` property is true. -/
def startupActions (p : Properties) : List StartupAction :=
  if p.heartbeat then
    [.addConnection p.manager_address,
     .spawnHeartbeatTask p.manager_address p.server_address p.lifetime]
  else []

/-- All `SendHeart` calls the process issues: `begin_heartbeat_report` is
the only `call_remote` site in the binary, and it runs only when spawned
by `main` under the `heartbeat` flag. -/
def processSendHeartCalls (p : Properties)
    (results : List (Except Unit Unit)) : List HeartbeatCall :=
  if p.heartbeat then
    (heartbeatRun p.manager_address p.server_address p.lifetime results).1
  else []

/-- Errors `call_remote` can surface to its caller. -/
inductive CallError where
  | bufferTooSmall
  | connectionError
deriving DecidableEq, Repr

/-- A decoded response frame: `(status, flags, metadata, data)`. -/
structure Response where
  status : Int
  flags : Nat
  metadata : List Nat
  data : List Nat
deriving DecidableEq, Repr

/-- Overwrite the front of a fixed-capacity buffer `buf` with `bytes`,
leaving the remaining capacity untouched. -/
def writeInto (buf bytes : List Nat) : List Nat :=
  bytes ++ buf.drop bytes.length

/-- Modelled from the spec: the final step of `call_remote` in the
`rpc::client` module (not part of the visible source), which delivers a
decoded response into the caller-supplied output buffers.  If either
declared payload length exceeds the capacity of its output buffer the
call fails with a buffer-too-small error and writes nothing; otherwise it
returns `(status, flags, metadata length, data length)` and copies both
payloads into the buffers. -/
def deliverResponse (resp : Response) (metaBuf dataBuf : List Nat) :
    Except CallError (Int × Nat × Nat × Nat) × List Nat × List Nat :=
  if metaBuf.length < resp.metadata.length ∨
      dataBuf.length < resp.data.length then
    (.error .bufferTooSmall, metaBuf, dataBuf)
  else
    (.ok (resp.status, resp.flags, resp.metadata.length, resp.data.length),
     writeInto metaBuf resp.metadata, writeInto dataBuf resp.data)

/-- Little-endian byte decomposition of a `u32` field. -/
def u32ToBytes (n : Nat) : List Nat :=
  [n % 256, n / 256 % 256, n / 65536 % 256, n / 16777216 % 256]

/-- Recompose a `u32` field from its four little-endian bytes. -/
def bytesToU32 (bs : List Nat) : Nat :=
  match bs with
  | [a, b, c, d] => a + 256 * b + 65536 * c + 16777216 * d
  | _ => 0

/-- Modelled from the spec: the configured maximum length of a
variable-length segment, used by the decoder to reject implausibly large
declared lengths. -/
def MAX_SEGMENT_LENGTH : Nat := 16777215

/-- Modelled from the spec: `encode_request` of the Frame Codec (the
`rpc` module is not part of the visible source).  Fixed-width `u32`
header fields — operation type, flags, and the three segment lengths —
followed by the length-prefixed path, data and metadata segments. -/
def encode_request (operation_type flags : Nat)
    (path data metadata : List Nat) : List Nat :=
  u32ToBytes operation_type ++ (u32ToBytes flags ++
    (u32ToBytes path.length ++ (u32ToBytes data.length ++
      (u32ToBytes metadata.length ++ (path ++ (data ++ metadata))))))

/-- Modelled from the spec: `decode_request` of the Frame Codec.  Reads
the five `u32` header fields, rejects a truncated frame, an implausibly
large declared length, or an inconsistent total length, and otherwise
splits off the three declared segments. -/
def decode_request (bs : List Nat) :
    Option (Nat × Nat × List Nat × List Nat × List Nat) :=
  if bs.length < 20 then none
  else
    let op := bytesToU32 (bs.take 4)
    let r1 := bs.drop 4
    let flags := bytesToU32 (r1.take 4)
    let r2 := r1.drop 4
    let plen := bytesToU32 (r2.take 4)
    let r3 := r2.drop 4
    let dlen := bytesToU32 (r3.take 4)
    let r4 := r3.drop 4
    let mlen := bytesToU32 (r4.take 4)
    let rest := r4.drop 4
    if MAX_SEGMENT_LENGTH < plen ∨ MAX_SEGMENT_LENGTH < dlen ∨
        MAX_SEGMENT_LENGTH < mlen then none
    else if rest.length ≠ plen + dlen + mlen then none
    else
      some (op, flags, rest.take plen, (rest.drop plen).take dlen,
        ((rest.drop plen).drop dlen).take mlen)

/-- Modelled from the spec: the Server's concurrency-relevant state — the
listener accepting inbound connections and the set of per-connection
receive loops currently running (identified by connection id). -/
structure ServerState where
  listenerAccepting : Bool
  activeConnections : List Nat
deriving DecidableEq, Repr

/-- The ways one Server connection loop can fail. -/
inductive ConnFailure where
  | decodeError
  | handlerError
  | writeError
deriving DecidableEq, Repr

/-- Modelled from the spec: the Server's reaction to a failure inside one
connection loop — that connection's loop terminates; nothing else of the
Server state changes. -/
def handleConnFailure (s : ServerState) (c : Nat) (_f : ConnFailure) :
    ServerState :=
  { listenerAccepting := s.listenerAccepting
    activeConnections := s.activeConnections.erase c }

end Sealfs

namespace Sealfs

/-- Every call the heartbeat loop issues is the freshly built
`heartbeatCall` record. -/
theorem heartbeatRun_calls (m s l : String)
    (results : List (Except Unit Unit)) (c : HeartbeatCall)
    (hc : c ∈ (heartbeatRun m s l results).1) : c = heartbeatCall m s l := by
  induction results with
  | nil => cases hc
  | cons r rs ih =>
    cases r with
    | error e =>
      simp only [heartbeatRun, heartbeatIteration, List.mem_singleton] at hc
      exact hc
    | ok u =>
      simp only [heartbeatRun, heartbeatIteration, List.mem_cons] at hc
      rcases hc with hc | hc
      · exact hc
      · exact ih hc

/-- Recomposing the four little-endian bytes of a `u32` value gives the
value back. -/
theorem bytesToU32_u32ToBytes (n : Nat) (h : n < 4294967296) :
    bytesToU32 (u32ToBytes n) = n := by
  simp only [u32ToBytes, bytesToU32]
  omega

/-- Taking the four header bytes of a `u32` field at the front. -/
theorem take4_u32 (n : Nat) (ys : List Nat) :
    (u32ToBytes n ++ ys).take 4 = u32ToBytes n :=
  List.take_left' rfl

/-- Dropping the four header bytes of a `u32` field at the front. -/
theorem drop4_u32 (n : Nat) (ys : List Nat) :
    (u32ToBytes n ++ ys).drop 4 = ys :=
  List.drop_left' rfl

/-- General round trip of the modelled Frame Codec. -/
theorem decode_encode_aux (op flags : Nat) (path data metadata : List Nat)
    (hop : op < 4294967296) (hflags : flags < 4294967296)
    (hp : path.length ≤ MAX_SEGMENT_LENGTH)
    (hd : data.length ≤ MAX_SEGMENT_LENGTH)
    (hm : metadata.length ≤ MAX_SEGMENT_LENGTH) :
    decode_request (encode_request op flags path data metadata) =
      some (op, flags, path, data, metadata) := by
  have hpl : path.length < 4294967296 := by
    unfold MAX_SEGMENT_LENGTH at hp; omega
  have hdl : data.length < 4294967296 := by
    unfold MAX_SEGMENT_LENGTH at hd; omega
  have hml : metadata.length < 4294967296 := by
    unfold MAX_SEGMENT_LENGTH at hm; omega
  simp only [decode_request, encode_request, take4_u32, drop4_u32,
    bytesToU32_u32ToBytes op hop, bytesToU32_u32ToBytes flags hflags,
    bytesToU32_u32ToBytes path.length hpl,
    bytesToU32_u32ToBytes data.length hdl,
    bytesToU32_u32ToBytes metadata.length hml]
  split_ifs with h1 h2 h3
  · exfalso
    simp only [List.length_append, u32ToBytes, List.length_cons,
      List.length_nil] at h1
    omega
  · exfalso
    unfold MAX_SEGMENT_LENGTH at hp hd hm h2
    omega
  · exfalso
    simp only [List.length_append] at h3
    omega
  · rw [List.take_left, List.drop_left, List.take_left, List.drop_left,
      List.take_length]

/-- C4: for operation type 0, whatever the flags and payloads,
`HelloHandler::dispatch` returns success with status 0, flags 0, empty
metadata and empty data. -/
theorem dispatch_zero_returns_empty_success (flags : Nat)
    (path data metadata : List Nat) :
    HelloHandler.dispatch 0 flags path data metadata =
      DispatchOutcome.ok 0 0 [] [] := rfl

/-- C1 counterexample: at the concrete input `operation_type = 999`,
`HelloHandler::dispatch` does not fail with an error result — it hits
`todo!()` and aborts (panics) instead. -/
theorem dispatch_999_not_error_result :
    HelloHandler.dispatch 999 0 [] [] [] ≠ DispatchOutcome.err ∧
      HelloHandler.dispatch 999 0 [] [] [] = DispatchOutcome.aborted := by
  exact ⟨by decide, rfl⟩

/-- C1 (amended): for every operation type other than 0, `dispatch` aborts
with a panic (`todo!()`), and in particular never returns a fabricated
success with status 0. -/
theorem dispatch_unknown_aborts (operation_type flags : Nat)
    (path data metadata : List Nat) (h : operation_type ≠ 0) :
    HelloHandler.dispatch operation_type flags path data metadata =
        DispatchOutcome.aborted ∧
      ∀ st fl md dt,
        HelloHandler.dispatch operation_type flags path data metadata ≠
          DispatchOutcome.ok st fl md dt := by
  match operation_type, h with
  | n + 1, _ =>
    exact ⟨rfl, fun st fl md dt => by simp [HelloHandler.dispatch]⟩

/-- Witness for C1's amended theorem at operation type 999. -/
theorem dispatch_unknown_aborts_witness :
    HelloHandler.dispatch 999 5 [1] [2] [3] = DispatchOutcome.aborted ∧
      ∀ st fl md dt,
        HelloHandler.dispatch 999 5 [1] [2] [3] ≠
          DispatchOutcome.ok st fl md dt :=
  dispatch_unknown_aborts 999 5 [1] [2] [3] (by decide)

/-- C2: if every heartbeat call before position `i` succeeded and the call
at position `i` returns an error, the reporting task panics there: exactly
`i + 1` calls are issued and the loop never continues past the failure,
whatever results would have followed. -/
theorem heartbeat_error_is_terminal (m s l : String)
    (oks rest : List (Except Unit Unit))
    (h : ∀ r ∈ oks, r = Except.ok ()) :
    heartbeatRun m s l (oks ++ Except.error () :: rest) =
      (List.replicate (oks.length + 1) (heartbeatCall m s l), true) := by
  induction oks with
  | nil => rfl
  | cons r rs ih =>
    have hr : r = Except.ok () := h r (List.mem_cons_self r rs)
    have hrs : ∀ x ∈ rs, x = Except.ok () :=
      fun x hx => h x (List.mem_cons_of_mem r hx)
    subst hr
    simp only [List.cons_append, heartbeatRun, heartbeatIteration,
      List.append_eq, ih hrs, List.length_cons, List.replicate_succ]

/-- Witness for C2 with two successful calls followed by a failure. -/
theorem heartbeat_error_is_terminal_witness :
    heartbeatRun "m" "s" "l"
        ([Except.ok (), Except.ok ()] ++ Except.error () ::
          [Except.ok (), Except.ok ()]) =
      (List.replicate 3 (heartbeatCall "m" "s" "l"), true) :=
  heartbeat_error_is_terminal "m" "s" "l" [Except.ok (), Except.ok ()]
    [Except.ok (), Except.ok ()] (by simp)

/-- C3: every call the heartbeat loop issues carries a freshly built
request `{address = server_address, flags = SERVER_FLAG, lifetime}` sent
via `call_remote` with operation type `SendHeart` to the manager; the
interval is a fixed 5-second period with `MissedTickBehavior::Delay`, so
after a tick missed by a slow call (completion time `now` at or past the
deadline `d`) the next tick is rescheduled a full period after `now` —
strictly in the future — rather than fired in a burst. -/
theorem heartbeat_fresh_request_fixed_interval (m s l : String)
    (results : List (Except Unit Unit)) (c : HeartbeatCall)
    (hc : c ∈ (heartbeatRun m s l results).1) (d now : Nat) (h : d ≤ now) :
    c.request = { address := s, flags := SERVER_FLAG, lifetime := l } ∧
      c.opType = OperationType.SendHeart ∧
      c.target = m ∧
      heartbeatInterval = { period := 5, behavior := .delay } ∧
      nextDeadline heartbeatInterval.behavior d now heartbeatInterval.period =
        now + heartbeatInterval.period ∧
      now < nextDeadline heartbeatInterval.behavior d now
        heartbeatInterval.period := by
  have hcall := heartbeatRun_calls m s l results c hc
  subst hcall
  refine ⟨rfl, rfl, rfl, rfl, rfl, ?_⟩
  show now < now + 5
  omega

/-- Witness for C3 at a one-iteration run with a late completion time. -/
theorem heartbeat_fresh_request_fixed_interval_witness :
    (heartbeatCall "m" "s" "l").request =
        { address := "s", flags := SERVER_FLAG, lifetime := "l" } ∧
      (heartbeatCall "m" "s" "l").opType = OperationType.SendHeart ∧
      (heartbeatCall "m" "s" "l").target = "m" ∧
      heartbeatInterval = { period := 5, behavior := .delay } ∧
      nextDeadline heartbeatInterval.behavior 10 17 heartbeatInterval.period =
        17 + heartbeatInterval.period ∧
      17 < nextDeadline heartbeatInterval.behavior 10 17
        heartbeatInterval.period :=
  heartbeat_fresh_request_fixed_interval "m" "s" "l" [Except.ok ()]
    (heartbeatCall "m" "s" "l") (by simp [heartbeatRun, heartbeatIteration])
    10 17 (by omega)

/-- C8: with `use_config_file` false, each effective property equals the
command-line argument when provided and the default server.yaml field
otherwise; and each assembled field depends only on its own argument, so
providing one argument never changes any other field. -/
theorem assembleProperties_field_by_field (args : Args) (defaults : Properties) :
    ((∀ v, args.manager_address = some v →
        (assembleProperties args defaults).manager_address = v) ∧
      (args.manager_address = none →
        (assembleProperties args defaults).manager_address =
          defaults.manager_address)) ∧
    ((∀ v, args.server_address = some v →
        (assembleProperties args defaults).server_address = v) ∧
      (args.server_address = none →
        (assembleProperties args defaults).server_address =
          defaults.server_address)) ∧
    ((∀ v, args.all_servers_address = some v →
        (assembleProperties args defaults).all_servers_address = v) ∧
      (args.all_servers_address = none →
        (assembleProperties args defaults).all_servers_address =
          defaults.all_servers_address)) ∧
    ((∀ v, args.lifetime = some v →
        (assembleProperties args defaults).lifetime = v) ∧
      (args.lifetime = none →
        (assembleProperties args defaults).lifetime = defaults.lifetime)) ∧
    ((∀ v, args.database_path = some v →
        (assembleProperties args defaults).database_path = v) ∧
      (args.database_path = none →
        (assembleProperties args defaults).database_path =
          defaults.database_path)) ∧
    ((∀ v, args.storage_path = some v →
        (assembleProperties args defaults).storage_path = v) ∧
      (args.storage_path = none →
        (assembleProperties args defaults).storage_path =
          defaults.storage_path)) ∧
    ((∀ v, args.heartbeat = some v →
        (assembleProperties args defaults).heartbeat = v) ∧
      (args.heartbeat = none →
        (assembleProperties args defaults).heartbeat = defaults.heartbeat)) ∧
    (∀ args2 : Args,
      (args2.manager_address = args.manager_address →
        (assembleProperties args2 defaults).manager_address =
          (assembleProperties args defaults).manager_address) ∧
      (args2.server_address = args.server_address →
        (assembleProperties args2 defaults).server_address =
          (assembleProperties args defaults).server_address) ∧
      (args2.all_servers_address = args.all_servers_address →
        (assembleProperties args2 defaults).all_servers_address =
          (assembleProperties args defaults).all_servers_address) ∧
      (args2.lifetime = args.lifetime →
        (assembleProperties args2 defaults).lifetime =
          (assembleProperties args defaults).lifetime) ∧
      (args2.database_path = args.database_path →
        (assembleProperties args2 defaults).database_path =
          (assembleProperties args defaults).database_path) ∧
      (args2.storage_path = args.storage_path →
        (assembleProperties args2 defaults).storage_path =
          (assembleProperties args defaults).storage_path) ∧
      (args2.heartbeat = args.heartbeat →
        (assembleProperties args2 defaults).heartbeat =
          (assembleProperties args defaults).heartbeat)) := by
  refine ⟨⟨?_, ?_⟩, ⟨?_, ?_⟩, ⟨?_, ?_⟩, ⟨?_, ?_⟩, ⟨?_, ?_⟩, ⟨?_, ?_⟩,
    ⟨?_, ?_⟩, ?_⟩ <;>
    first
    | (intro v hv; simp [assembleProperties, hv])
    | (intro hv; simp [assembleProperties, hv])
    | (intro args2
       refine ⟨?_, ?_, ?_, ?_, ?_, ?_, ?_⟩ <;>
         (intro hv; simp [assembleProperties, hv]))

/-- Witness for C8: one provided argument is taken verbatim, an absent
one falls back to the default. -/
theorem assembleProperties_field_by_field_witness :
    (assembleProperties
        { manager_address := some "M", server_address := none,
          all_servers_address := none, lifetime := none,
          database_path := none, storage_path := none,
          heartbeat := none }
        { manager_address := "dm", server_address := "ds",
          all_servers_address := [], lifetime := "dl",
          database_path := "dd", storage_path := "dp",
          heartbeat := true }).manager_address = "M" ∧
    (assembleProperties
        { manager_address := some "M", server_address := none,
          all_servers_address := none, lifetime := none,
          database_path := none, storage_path := none,
          heartbeat := none }
        { manager_address := "dm", server_address := "ds",
          all_servers_address := [], lifetime := "dl",
          database_path := "dd", storage_path := "dp",
          heartbeat := true }).server_address = "ds" :=
  ⟨(assembleProperties_field_by_field
      { manager_address := some "M", server_address := none,
        all_servers_address := none, lifetime := none,
        database_path := none, storage_path := none, heartbeat := none }
      { manager_address := "dm", server_address := "ds",
        all_servers_address := [], lifetime := "dl",
        database_path := "dd", storage_path := "dp",
        heartbeat := true }).1.1 "M" rfl,
   (assembleProperties_field_by_field
      { manager_address := some "M", server_address := none,
        all_servers_address := none, lifetime := none,
        database_path := none, storage_path := none, heartbeat := none }
      { manager_address := "dm", server_address := "ds",
        all_servers_address := [], lifetime := "dl",
        database_path := "dd", storage_path := "dp",
        heartbeat := true }).2.1.2 rfl⟩

/-- C9: the connection to the manager is added and the heartbeat task
spawned exactly when the effective `heartbeat` property is true; when it
is false the process issues no `SendHeart` call at all. -/
theorem heartbeat_actions_iff_flag (p : Properties)
    (results : List (Except Unit Unit)) :
    (StartupAction.addConnection p.manager_address ∈ startupActions p ↔
        p.heartbeat = true) ∧
      (StartupAction.spawnHeartbeatTask p.manager_address p.server_address
          p.lifetime ∈ startupActions p ↔ p.heartbeat = true) ∧
      (p.heartbeat = false → processSendHeartCalls p results = []) := by
  rcases hp : p.heartbeat with _ | _ <;>
    simp [startupActions, processSendHeartCalls, hp]

/-- C5: for every tuple whose segment lengths are within the configured
maxima (operation type and flags being `u32` values), decoding the
encoding reproduces the exact input; and with empty path, data and
metadata the encoding carries three length fields of 0 and decoding
succeeds. -/
theorem codec_roundtrip (op flags : Nat) (path data metadata : List Nat)
    (hop : op < 4294967296) (hflags : flags < 4294967296)
    (hp : path.length ≤ MAX_SEGMENT_LENGTH)
    (hd : data.length ≤ MAX_SEGMENT_LENGTH)
    (hm : metadata.length ≤ MAX_SEGMENT_LENGTH) :
    decode_request (encode_request op flags path data metadata) =
        some (op, flags, path, data, metadata) ∧
      ((encode_request op flags [] [] []).drop 8).take 12 =
        u32ToBytes 0 ++ (u32ToBytes 0 ++ u32ToBytes 0) ∧
      decode_request (encode_request op flags [] [] []) =
        some (op, flags, [], [], []) :=
  ⟨decode_encode_aux op flags path data metadata hop hflags hp hd hm,
   rfl,
   decode_encode_aux op flags [] [] [] hop hflags (by simp) (by simp)
     (by simp)⟩

/-- Witness for C5 at a small concrete frame. -/
theorem codec_roundtrip_witness :
    decode_request (encode_request 7 1 [1] [] [2, 3]) =
        some (7, 1, [1], [], [2, 3]) ∧
      ((encode_request 7 1 [] [] []).drop 8).take 12 =
        u32ToBytes 0 ++ (u32ToBytes 0 ++ u32ToBytes 0) ∧
      decode_request (encode_request 7 1 [] [] []) =
        some (7, 1, [], [], []) :=
  codec_roundtrip 7 1 [1] [] [2, 3] (by norm_num) (by norm_num)
    (by norm_num [MAX_SEGMENT_LENGTH]) (by norm_num [MAX_SEGMENT_LENGTH])
    (by norm_num [MAX_SEGMENT_LENGTH])

/-- C6: whenever a response declares a metadata or data length larger than
the capacity of the corresponding caller-supplied output buffer, the call
fails with a buffer-too-small error and both buffers are returned exactly
as they were — no partial write. -/
theorem call_buffer_too_small_no_write (resp : Response)
    (metaBuf dataBuf : List Nat)
    (h : metaBuf.length < resp.metadata.length ∨
      dataBuf.length < resp.data.length) :
    deliverResponse resp metaBuf dataBuf =
      (Except.error CallError.bufferTooSmall, metaBuf, dataBuf) := by
  unfold deliverResponse
  rw [if_pos h]

/-- Witness for C6: a two-byte data payload against a one-byte buffer. -/
theorem call_buffer_too_small_no_write_witness :
    deliverResponse
        { status := 0, flags := 0, metadata := [], data := [1, 2] }
        [] [9] =
      (Except.error CallError.bufferTooSmall, [], [9]) :=
  call_buffer_too_small_no_write
    { status := 0, flags := 0, metadata := [], data := [1, 2] }
    [] [9] (by simp)

/-- C7: a failure inside one Server connection loop (decode, handler or
write error) terminates only that connection's loop: every other
connection remains active exactly as before, and the listener keeps
accepting. -/
theorem connection_failure_isolated (s : ServerState) (c : Nat)
    (f : ConnFailure) (c2 : Nat) (hne : c2 ≠ c) :
    (c2 ∈ (handleConnFailure s c f).activeConnections ↔
        c2 ∈ s.activeConnections) ∧
      (handleConnFailure s c f).listenerAccepting = s.listenerAccepting :=
  ⟨List.mem_erase_of_ne hne, rfl⟩

/-- Witness for C7: a handler error on connection 1 leaves connection 2
active and the listener accepting. -/
theorem connection_failure_isolated_witness :
    (2 ∈ (handleConnFailure
          { listenerAccepting := true, activeConnections := [1, 2] } 1
          ConnFailure.handlerError).activeConnections ↔
        2 ∈ [1, 2]) ∧
      (handleConnFailure
          { listenerAccepting := true, activeConnections := [1, 2] } 1
          ConnFailure.handlerError).listenerAccepting = true :=
  connection_failure_isolated
    { listenerAccepting := true, activeConnections := [1, 2] } 1
    ConnFailure.handlerError 2 (by decide)

/-- C10: every heartbeat `call_remote` supplies zero-capacity output
buffers and an empty send-metadata argument; under the buffer-sizing
contract a heartbeat round can therefore succeed only when the response
declares zero metadata and data lengths, and any non-empty payload makes
the call fail with a buffer error, which the loop escalates to a panic. -/
theorem heartbeat_zero_capacity_buffers (m s l : String) (resp : Response) :
    (heartbeatCall m s l).metaBufCap = 0 ∧
      (heartbeatCall m s l).dataBufCap = 0 ∧
      (heartbeatCall m s l).sendMetadata = [] ∧
      (∀ x, (deliverResponse resp [] []).1 = Except.ok x →
        resp.metadata = [] ∧ resp.data = []) ∧
      ((resp.metadata ≠ [] ∨ resp.data ≠ []) →
        (deliverResponse resp [] []).1 =
            Except.error CallError.bufferTooSmall ∧
          heartbeatIteration (Except.error ()) = IterOutcome.panicked) := by
  refine ⟨rfl, rfl, rfl, ?_, ?_⟩
  · intro x hx
    unfold deliverResponse at hx
    by_cases hcond : ([] : List Nat).length < resp.metadata.length ∨
        ([] : List Nat).length < resp.data.length
    · rw [if_pos hcond] at hx
      simp at hx
    · rw [if_neg hcond] at hx
      push_neg at hcond
      simp only [List.length_nil, Nat.le_zero] at hcond
      exact ⟨List.eq_nil_of_length_eq_zero hcond.1,
        List.eq_nil_of_length_eq_zero hcond.2⟩
  · intro h
    refine ⟨?_, rfl⟩
    unfold deliverResponse
    rw [if_pos]
    rcases h with h | h
    · exact Or.inl (by simpa using List.length_pos.mpr h)
    · exact Or.inr (by simpa using List.length_pos.mpr h)

/-- Witness for C10 with a response carrying one metadata byte. -/
theorem heartbeat_zero_capacity_buffers_witness :
    (heartbeatCall "m" "s" "l").metaBufCap = 0 ∧
      (deliverResponse { status := 0, flags := 0, metadata := [9], data := [] }
          [] []).1 = Except.error CallError.bufferTooSmall ∧
      heartbeatIteration (Except.error ()) = IterOutcome.panicked :=
  ⟨(heartbeat_zero_capacity_buffers "m" "s" "l"
      { status := 0, flags := 0, metadata := [9], data := [] }).1,
   ((heartbeat_zero_capacity_buffers "m" "s" "l"
      { status := 0, flags := 0, metadata := [9], data := [] }).2.2.2.2
      (Or.inl (by simp))).1,
   ((heartbeat_zero_capacity_buffers "m" "s" "l"
      { status := 0, flags := 0, metadata := [9], data := [] }).2.2.2.2
      (Or.inl (by simp))).2⟩

/-- Witness for C9 at a configuration with the heartbeat flag off. -/
theorem heartbeat_actions_iff_flag_witness :
    processSendHeartCalls
        { manager_address := "m", server_address := "s",
          all_servers_address := [], lifetime := "l",
          database_path := "d", storage_path := "p",
          heartbeat := false } [Except.ok ()] = [] :=
  (heartbeat_actions_iff_flag
      { manager_address := "m", server_address := "s",
        all_servers_address := [], lifetime := "l",
        database_path := "d", storage_path := "p",
        heartbeat := false } [Except.ok ()]).2.2 rfl

end Sealfs
